import Mathlib

/-!
Verification of the statistics module of the `assault` load-testing tool
(`src/assault/stats.py`).

The module defines a single class `Results` holding a wall-clock duration
`total_time` and a list of per-request outcome dictionaries with integer
`status_code` and floating-point `request_time` fields.  The constructor
stores the list sorted ascending by `request_time`; seven query methods
derive scalar statistics.

Embedding choices:
* Python floats are modelled by `ℚ` (all arithmetic in the module is exact
  on the rationals: sums, means, divisions, and `round`).
* A query that can raise in Python (`IndexError` from `[-1]`/`[0]` on an
  empty list, `StatisticsError` from `statistics.mean([])`,
  `ZeroDivisionError` from division by `0`) is embedded with an `Option`
  codomain, `none` marking the raise.  `requests_total_time` uses Python's
  `sum`, which returns `0` on an empty iterable and never raises, so it
  keeps a plain `ℚ` codomain.
* Python's `round` on a float is round-half-to-even; `pyRound` below
  implements that on `ℚ`.
* Python's `sorted` is a stable sort; every query observes only the
  multiset of stored records (or the sorted sequence of `request_time`
  keys, which is the same for any correct sort), so the embedding uses
  `List.insertionSort` with the `request_time` ordering.
-/

/-- One request outcome record: `{"status_code": ..., "request_time": ...}`. -/
structure Request where
  status_code : ℤ
  request_time : ℚ
deriving DecidableEq, Repr

/-- Comparison used as the sort key in `Results.__init__`:
`sorted(requests, key=lambda r: r["request_time"])`. -/
def timeLE (a b : Request) : Prop := a.request_time ≤ b.request_time

instance : DecidableRel timeLE := fun a b =>
  inferInstanceAs (Decidable (a.request_time ≤ b.request_time))

instance : IsTotal Request timeLE := ⟨fun a b => le_total a.request_time b.request_time⟩

instance : IsTrans Request timeLE := ⟨fun _ _ _ h h' => le_trans h h'⟩

/-- The `Results` object: `self.total_time` and the stored (sorted) list
`self.requests`. -/
structure Results where
  total_time : ℚ
  requests : List Request

/-- `Results.__init__`: stores `total_time` verbatim and
`sorted(requests, key=lambda r: r["request_time"])`. -/
def Results.init (total_time : ℚ) (requests : List Request) : Results :=
  ⟨total_time, List.insertionSort timeLE requests⟩

/-- `Results.slowest`: `self.requests[-1]["request_time"]`; `[-1]` raises
`IndexError` on an empty list, hence the `Option`. -/
def Results.slowest (res : Results) : Option ℚ :=
  res.requests.getLast?.map Request.request_time

/-- `Results.fastest`: `self.requests[0]["request_time"]`; `[0]` raises
`IndexError` on an empty list, hence the `Option`. -/
def Results.fastest (res : Results) : Option ℚ :=
  res.requests.head?.map Request.request_time

/-- `Results.average_time`: `mean([r["request_time"] for r in self.requests])`;
`statistics.mean` raises `StatisticsError` on an empty list, and otherwise
returns the exact arithmetic mean. -/
def Results.average_time (res : Results) : Option ℚ :=
  if res.requests = [] then none
  else some ((res.requests.map Request.request_time).sum / res.requests.length)

/-- `Results.requests_total_time`:
`sum(r["request_time"] for r in self.requests)`; Python's `sum` returns `0`
on an empty iterable and never raises. -/
def Results.requests_total_time (res : Results) : ℚ :=
  (res.requests.map Request.request_time).sum

/-- `Results.successful_requests`:
`len([r for r in self.requests if r["status_code"] in range(200, 299)])`;
`range(200, 299)` contains the integers `200 ≤ x < 299`. -/
def Results.successful_requests (res : Results) : ℕ :=
  (res.requests.filter fun r => decide (200 ≤ r.status_code ∧ r.status_code < 299)).length

/-- Python `round` on a float value: round to the nearest integer, ties to
the even integer (banker's rounding). -/
def pyRound (x : ℚ) : ℤ :=
  if x - ⌊x⌋ < 1 / 2 then ⌊x⌋
  else if 1 / 2 < x - ⌊x⌋ then ⌊x⌋ + 1
  else if ⌊x⌋ % 2 = 0 then ⌊x⌋ else ⌊x⌋ + 1

/-- `Results.requests_per_minute`:
`round(60 * len(self.requests) / self.total_time)`; the division raises
`ZeroDivisionError` when `self.total_time` is zero, hence the `Option`. -/
def Results.requests_per_minute (res : Results) : Option ℤ :=
  if res.total_time = 0 then none
  else some (pyRound (60 * res.requests.length / res.total_time))

/-- `Results.requests_per_second`:
`round(len(self.requests) / self.total_time)`; the division raises
`ZeroDivisionError` when `self.total_time` is zero, hence the `Option`. -/
def Results.requests_per_second (res : Results) : Option ℤ :=
  if res.total_time = 0 then none
  else some (pyRound (res.requests.length / res.total_time))

/-! ### Basic facts about the constructor -/

/-- The stored list is a permutation of the input list. -/
lemma init_requests_perm (t : ℚ) (l : List Request) :
    (Results.init t l).requests.Perm l :=
  List.perm_insertionSort timeLE l

/-- The stored list is sorted by `request_time`. -/
lemma init_requests_sorted (t : ℚ) (l : List Request) :
    (Results.init t l).requests.Sorted timeLE :=
  List.sorted_insertionSort timeLE l

/-- The sequence of `request_time` keys of the stored list is sorted. -/
lemma init_keys_sorted (t : ℚ) (l : List Request) :
    ((Results.init t l).requests.map Request.request_time).Sorted (· ≤ ·) :=
  List.Pairwise.map Request.request_time (fun _ _ h => h) (init_requests_sorted t l)

lemma init_total_time (t : ℚ) (l : List Request) :
    (Results.init t l).total_time = t := rfl

lemma init_requests_length (t : ℚ) (l : List Request) :
    (Results.init t l).requests.length = l.length :=
  (init_requests_perm t l).length_eq

/-! ### Sorted-list helper lemmas over `ℚ` -/

lemma head?_le_of_sorted {l : List ℚ} (hs : l.Sorted (· ≤ ·)) {a x : ℚ}
    (ha : l.head? = some a) (hx : x ∈ l) : a ≤ x := by
  cases l with
  | nil => cases hx
  | cons b tl =>
    simp only [List.head?_cons, Option.some.injEq] at ha
    subst ha
    rcases List.mem_cons.mp hx with rfl | hmem
    · exact le_refl _
    · exact List.rel_of_sorted_cons hs _ hmem

lemma mem_of_getLast?_eq {α : Type} {l : List α} {a : α} (h : l.getLast? = some a) :
    a ∈ l := by
  induction l with
  | nil => simp at h
  | cons b tl ih =>
    cases tl with
    | nil =>
      simp only [List.getLast?_singleton, Option.some.injEq] at h
      exact h ▸ List.mem_singleton_self a
    | cons c tl' =>
      rw [List.getLast?_cons_cons] at h
      exact List.mem_cons_of_mem b (ih h)

lemma le_getLast?_of_sorted {l : List ℚ} (hs : l.Sorted (· ≤ ·)) {a x : ℚ}
    (ha : l.getLast? = some a) (hx : x ∈ l) : x ≤ a := by
  induction l with
  | nil => cases hx
  | cons b tl ih =>
    cases tl with
    | nil =>
      simp only [List.getLast?_singleton, Option.some.injEq] at ha
      rcases List.mem_singleton.mp hx with rfl
      exact le_of_eq ha
    | cons c tl' =>
      rw [List.getLast?_cons_cons] at ha
      rcases List.mem_cons.mp hx with rfl | hmem
      · exact List.rel_of_sorted_cons hs a (mem_of_getLast?_eq ha)
      · exact ih hs.of_cons ha hmem

lemma head?_mem {α : Type} {l : List α} {a : α} (h : l.head? = some a) : a ∈ l := by
  cases l with
  | nil => simp at h
  | cons b tl =>
    simp only [List.head?_cons, Option.some.injEq] at h
    exact h ▸ List.mem_cons_self b tl

lemma map_getLast?_eq {α β : Type} (f : α → β) (l : List α) :
    (l.map f).getLast? = l.getLast?.map f := by
  induction l with
  | nil => rfl
  | cons a tl ih =>
    cases tl with
    | nil => rfl
    | cons b tl' =>
      rw [List.map_cons, List.map_cons, List.getLast?_cons_cons,
        List.getLast?_cons_cons, ← List.map_cons]
      exact ih

lemma map_head?_eq {α β : Type} (f : α → β) (l : List α) :
    (l.map f).head? = l.head?.map f := by
  cases l <;> rfl

/-- `slowest` reads the last `request_time` key of the stored list. -/
lemma slowest_eq_getLast? (res : Results) :
    res.slowest = (res.requests.map Request.request_time).getLast? := by
  unfold Results.slowest
  rw [map_getLast?_eq]

/-- `fastest` reads the first `request_time` key of the stored list. -/
lemma fastest_eq_head? (res : Results) :
    res.fastest = (res.requests.map Request.request_time).head? := by
  unfold Results.fastest
  rw [map_head?_eq]

/-- Round-half-to-even of a non-positive rational is non-positive. -/
lemma pyRound_nonpos {x : ℚ} (hx : x ≤ 0) : pyRound x ≤ 0 := by
  unfold pyRound
  have hfl : (⌊x⌋ : ℚ) ≤ x := Int.floor_le x
  split_ifs with h1 h2 h3
  · exact Int.floor_nonpos hx
  · have hq : (⌊x⌋ : ℚ) < -(1 / 2) := by linarith
    have hz : ⌊x⌋ < 0 := by
      have : (⌊x⌋ : ℚ) < 0 := hq.trans (by norm_num)
      exact_mod_cast this
    omega
  · exact Int.floor_nonpos hx
  · have he : x - ⌊x⌋ = 1 / 2 := le_antisymm (not_lt.mp h2) (not_lt.mp h1)
    have hq : (⌊x⌋ : ℚ) < 0 := by linarith
    have hz : ⌊x⌋ < 0 := by exact_mod_cast hq
    omega

/-- Outcomes of the module's doctest example:
`[(200, 3.4), (500, 6.1), (200, 1.04)]` with `total_time = 10.6`. -/
def demoRequests : List Request :=
  [⟨200, 17 / 5⟩, ⟨500, 61 / 10⟩, ⟨200, 26 / 25⟩]

/-- The demo outcomes sorted ascending by `request_time`, as stored by the
constructor. -/
lemma demo_init_requests :
    (Results.init (53 / 5) demoRequests).requests
      = [⟨200, 26 / 25⟩, ⟨200, 17 / 5⟩, ⟨500, 61 / 10⟩] := by
  norm_num [Results.init, demoRequests, List.insertionSort, List.orderedInsert, timeLE]

example : (Results.init (53 / 5) demoRequests).slowest = some (61 / 10) := by
  simp [Results.slowest, demo_init_requests]
example : (Results.init (53 / 5) demoRequests).fastest = some (26 / 25) := by
  simp [Results.fastest, demo_init_requests]
example : (Results.init (53 / 5) demoRequests).average_time = some (527 / 150) := by
  unfold Results.average_time
  rw [demo_init_requests, if_neg (List.cons_ne_nil _ _)]
  norm_num
example : (Results.init (53 / 5) demoRequests).requests_total_time = 527 / 50 := by
  unfold Results.requests_total_time
  rw [demo_init_requests]
  norm_num
example : (Results.init (53 / 5) demoRequests).successful_requests = 2 := by
  unfold Results.successful_requests
  rw [demo_init_requests]
  norm_num
example : (Results.init (53 / 5) demoRequests).requests_per_minute = some 17 := by
  unfold Results.requests_per_minute
  rw [init_total_time, demo_init_requests]
  norm_num [pyRound]
example : (Results.init (53 / 5) demoRequests).requests_per_second = some 0 := by
  unfold Results.requests_per_second
  rw [init_total_time, demo_init_requests]
  norm_num [pyRound]

/-! ### Claims -/

/-- C9: for a `Results` constructed with an empty requests list,
`requests_total_time()` returns `0` normally (the sum of an empty sequence,
via Python's `sum`) and does not fail. -/
theorem claim_C9 (t : ℚ) : (Results.init t []).requests_total_time = 0 := rfl

/-- C1 counterexample: on the `Results` constructed with `total_time = 10`
and an empty requests list, `requests_total_time()` returns the value `0`
instead of failing (`sum` of an empty generator is `0`), so the claim that
all four queries fail with an `EmptyInputError`-style error is false.  The
other three queries do fail (embedded as `none`). -/
theorem claim_C1_counterexample :
    (Results.init 10 []).requests_total_time = 0 ∧
    (Results.init 10 []).slowest = none ∧
    (Results.init 10 []).fastest = none ∧
    (Results.init 10 []).average_time = none :=
  ⟨rfl, rfl, rfl, rfl⟩

/-- C1 amended: for every `Results` constructed with an empty requests
list, `slowest()`, `fastest()` and `average_time()` fail
(IndexError/StatisticsError), while `requests_total_time()` returns `0`
normally. -/
theorem claim_C1_amended (t : ℚ) :
    (Results.init t []).slowest = none ∧
    (Results.init t []).fastest = none ∧
    (Results.init t []).average_time = none ∧
    (Results.init t []).requests_total_time = 0 :=
  ⟨rfl, rfl, rfl, rfl⟩

/-- C2: for every requests list, `successful_requests()` returns exactly the
number of outcomes whose `status_code` lies in the inclusive integer range
`[200, 298]` (the code tests membership in `range(200, 299)`). -/
theorem claim_C2 (t : ℚ) (l : List Request) :
    (Results.init t l).successful_requests
      = l.countP fun r => decide (200 ≤ r.status_code ∧ r.status_code ≤ 298) := by
  unfold Results.successful_requests
  rw [← List.countP_eq_length_filter]
  have hfun : (fun r : Request => decide (200 ≤ r.status_code ∧ r.status_code < 299))
      = fun r : Request => decide (200 ≤ r.status_code ∧ r.status_code ≤ 298) := by
    funext r
    apply decide_eq_decide.mpr
    constructor
    · exact fun hc => ⟨hc.1, by omega⟩
    · exact fun hc => ⟨hc.1, by omega⟩
  rw [hfun]
  exact (init_requests_perm t l).countP_eq _

/-- C3 counterexample: with `total_time = -2` (which is `≤ 0`) and one
request, both throughput queries return values (`round(60·1/(-2)) = -30`
and `round(1/(-2)) = 0`) instead of failing, so the claim that every
`total_time ≤ 0` fails with an `InvalidDurationError`-style error is false;
only division by zero raises in the code. -/
theorem claim_C3_counterexample :
    (Results.init (-2) [⟨200, 1⟩]).requests_per_minute = some (-30) ∧
    (Results.init (-2) [⟨200, 1⟩]).requests_per_second = some 0 := by
  constructor
  · unfold Results.requests_per_minute
    norm_num [Results.init, List.insertionSort, List.orderedInsert, pyRound]
  · unfold Results.requests_per_second
    norm_num [Results.init, List.insertionSort, List.orderedInsert, pyRound]

/-- C3 amended: `requests_per_minute()` and `requests_per_second()` fail
(with a `ZeroDivisionError`) exactly when `total_time` is `0`; for every
strictly negative `total_time` both return normally, with the rounded
quotients `round(60·n/total_time)` and `round(n/total_time)`. -/
theorem claim_C3_amended (t : ℚ) (l : List Request) :
    ((Results.init t l).requests_per_minute = none ↔ t = 0) ∧
    ((Results.init t l).requests_per_second = none ↔ t = 0) ∧
    (t < 0 →
      (Results.init t l).requests_per_minute = some (pyRound (60 * l.length / t)) ∧
      (Results.init t l).requests_per_second = some (pyRound (l.length / t))) := by
  unfold Results.requests_per_minute Results.requests_per_second
  rw [init_total_time, init_requests_length]
  refine ⟨?_, ?_, ?_⟩
  · by_cases ht : t = 0
    · rw [if_pos ht]
      exact iff_of_true rfl ht
    · rw [if_neg ht]
      exact iff_of_false (by simp) ht
  · by_cases ht : t = 0
    · rw [if_pos ht]
      exact iff_of_true rfl ht
    · rw [if_neg ht]
      exact iff_of_false (by simp) ht
  · intro hneg
    have ht : t ≠ 0 := ne_of_lt hneg
    rw [if_neg ht, if_neg ht]
    exact ⟨rfl, rfl⟩

/-- C3 amended, witness: at `total_time = -2` both queries return values
(the inner `t < 0` hypothesis is discharged concretely), and at
`total_time = 0` the biconditional gives the failure. -/
theorem claim_C3_witness :
    (-2 : ℚ) < 0 ∧
      (Results.init (-2) [⟨200, 1⟩]).requests_per_minute
        = some (pyRound (60 * ([⟨200, 1⟩] : List Request).length / (-2))) ∧
      (Results.init (-2) [⟨200, 1⟩]).requests_per_second
        = some (pyRound (([⟨200, 1⟩] : List Request).length / (-2))) ∧
      ((Results.init 0 [⟨200, 1⟩]).requests_per_minute = none ↔ (0 : ℚ) = 0) := by
  have h2 := claim_C3_amended (-2) [⟨200, 1⟩]
  have h0 := claim_C3_amended 0 [⟨200, 1⟩]
  have hneg := h2.2.2 (by norm_num)
  exact ⟨by norm_num, hneg.1, hneg.2, h0.1⟩

/-- C4: for every `Results` with `n` outcomes and `total_time > 0`,
`requests_per_minute()` equals `round(60 * n / total_time)` and
`requests_per_second()` equals `round(n / total_time)`, with `round` the
round-half-to-even rounding (`pyRound`). -/
theorem claim_C4 (t : ℚ) (l : List Request) (h : 0 < t) :
    (Results.init t l).requests_per_minute = some (pyRound (60 * l.length / t)) ∧
    (Results.init t l).requests_per_second = some (pyRound (l.length / t)) := by
  have ht : t ≠ 0 := ne_of_gt h
  unfold Results.requests_per_minute Results.requests_per_second
  rw [init_total_time, init_requests_length, if_neg ht, if_neg ht]
  exact ⟨rfl, rfl⟩

/-- C4 witness: the doctest input (three outcomes, `total_time = 10.6`)
gives `requests_per_minute() = 17` (matching the module's doctest) and
`requests_per_second() = 0`. -/
theorem claim_C4_witness :
    (0 : ℚ) < 53 / 5 ∧
      (Results.init (53 / 5) demoRequests).requests_per_minute = some 17 ∧
      (Results.init (53 / 5) demoRequests).requests_per_second = some 0 := by
  have h := claim_C4 (53 / 5) demoRequests (by norm_num)
  refine ⟨by norm_num, ?_, ?_⟩
  · rw [h.1]
    norm_num [demoRequests, pyRound]
  · rw [h.2]
    norm_num [demoRequests, pyRound]

/-- C5: for every non-empty requests list, `slowest()` returns the maximum
`request_time` over all outcomes and `fastest()` the minimum (they read the
last and first element of the sequence stored sorted ascending by
`request_time`). -/
theorem claim_C5 (t : ℚ) (l : List Request) (h : l ≠ []) :
    ∃ s f, (Results.init t l).slowest = some s ∧
      (Results.init t l).fastest = some f ∧
      s ∈ l.map Request.request_time ∧ f ∈ l.map Request.request_time ∧
      (∀ x ∈ l.map Request.request_time, x ≤ s) ∧
      (∀ x ∈ l.map Request.request_time, f ≤ x) := by
  have hperm : ((Results.init t l).requests.map Request.request_time).Perm
      (l.map Request.request_time) := (init_requests_perm t l).map _
  have hsor := init_keys_sorted t l
  have hkne : (Results.init t l).requests.map Request.request_time ≠ [] := by
    intro hk
    apply h
    have hlen := hperm.length_eq
    rw [hk] at hlen
    have : l.length = 0 := by simpa using hlen.symm
    exact List.length_eq_zero.mp this
  obtain ⟨s, hs⟩ : ∃ s,
      ((Results.init t l).requests.map Request.request_time).getLast? = some s :=
    ⟨_, List.getLast?_eq_getLast_of_ne_nil hkne⟩
  obtain ⟨f, hf⟩ : ∃ f,
      ((Results.init t l).requests.map Request.request_time).head? = some f := by
    cases hK : (Results.init t l).requests.map Request.request_time with
    | nil => exact absurd hK hkne
    | cons a tl => exact ⟨a, List.head?_cons⟩
  refine ⟨s, f, ?_, ?_, ?_, ?_, ?_, ?_⟩
  · rw [slowest_eq_getLast?, hs]
  · rw [fastest_eq_head?, hf]
  · exact hperm.mem_iff.mp (mem_of_getLast?_eq hs)
  · exact hperm.mem_iff.mp (head?_mem hf)
  · exact fun x hx => le_getLast?_of_sorted hsor hs (hperm.mem_iff.mpr hx)
  · exact fun x hx => head?_le_of_sorted hsor hf (hperm.mem_iff.mpr hx)

/-- C5 witness at the doctest input. -/
theorem claim_C5_witness :
    demoRequests ≠ [] ∧
      (∃ s f, (Results.init (53 / 5) demoRequests).slowest = some s ∧
        (Results.init (53 / 5) demoRequests).fastest = some f ∧
        s ∈ demoRequests.map Request.request_time ∧
        f ∈ demoRequests.map Request.request_time ∧
        (∀ x ∈ demoRequests.map Request.request_time, x ≤ s) ∧
        (∀ x ∈ demoRequests.map Request.request_time, f ≤ x)) :=
  ⟨by simp [demoRequests], claim_C5 (53 / 5) demoRequests (by simp [demoRequests])⟩

/-- C6: for every non-empty requests list, `average_time()` returns the
arithmetic mean of all `request_time` values (sum divided by count) and
`requests_total_time()` returns their sum. -/
theorem claim_C6 (t : ℚ) (l : List Request) (h : l ≠ []) :
    (Results.init t l).average_time
      = some ((l.map Request.request_time).sum / l.length) ∧
    (Results.init t l).requests_total_time = (l.map Request.request_time).sum := by
  have hperm : ((Results.init t l).requests.map Request.request_time).Perm
      (l.map Request.request_time) := (init_requests_perm t l).map _
  have hsum := hperm.sum_eq
  have hne : (Results.init t l).requests ≠ [] := by
    intro hk
    apply h
    have hlen := init_requests_length t l
    rw [hk] at hlen
    exact List.length_eq_zero.mp hlen.symm
  constructor
  · unfold Results.average_time
    rw [if_neg hne, hsum, init_requests_length]
  · unfold Results.requests_total_time
    exact hsum

/-- C6 witness: at the doctest input the mean is
`3.513333... = 527/150` and the latency sum is `10.54 = 527/50`, matching
the module's doctests. -/
theorem claim_C6_witness :
    demoRequests ≠ [] ∧
      (Results.init (53 / 5) demoRequests).average_time = some (527 / 150) ∧
      (Results.init (53 / 5) demoRequests).requests_total_time = 527 / 50 := by
  have h := claim_C6 (53 / 5) demoRequests (by simp [demoRequests])
  refine ⟨by simp [demoRequests], ?_, ?_⟩
  · rw [h.1]
    norm_num [demoRequests]
  · rw [h.2]
    norm_num [demoRequests]

/-- C7: for every `Results` constructed from a non-empty requests list,
`fastest() ≤ average_time() ≤ slowest()`. -/
theorem claim_C7 (t : ℚ) (l : List Request) (h : l ≠ []) :
    ∃ f a s, (Results.init t l).fastest = some f ∧
      (Results.init t l).average_time = some a ∧
      (Results.init t l).slowest = some s ∧ f ≤ a ∧ a ≤ s := by
  have hsor := init_keys_sorted t l
  have hrne : (Results.init t l).requests ≠ [] := by
    intro hk
    apply h
    have hlen := init_requests_length t l
    rw [hk] at hlen
    exact List.length_eq_zero.mp hlen.symm
  have hkne : (Results.init t l).requests.map Request.request_time ≠ [] := by
    simpa using hrne
  obtain ⟨s, hs⟩ : ∃ s,
      ((Results.init t l).requests.map Request.request_time).getLast? = some s :=
    ⟨_, List.getLast?_eq_getLast_of_ne_nil hkne⟩
  obtain ⟨f, hf⟩ : ∃ f,
      ((Results.init t l).requests.map Request.request_time).head? = some f := by
    cases hK : (Results.init t l).requests.map Request.request_time with
    | nil => exact absurd hK hkne
    | cons a tl => exact ⟨a, List.head?_cons⟩
  have hKpos : (0 : ℚ) < ((Results.init t l).requests.map Request.request_time).length := by
    have : 0 < ((Results.init t l).requests.map Request.request_time).length :=
      List.length_pos.mpr hkne
    exact_mod_cast this
  have hlb : ∀ x ∈ (Results.init t l).requests.map Request.request_time, f ≤ x :=
    fun x hx => head?_le_of_sorted hsor hf hx
  have hub : ∀ x ∈ (Results.init t l).requests.map Request.request_time, x ≤ s :=
    fun x hx => le_getLast?_of_sorted hsor hs hx
  have hfa : f ≤ ((Results.init t l).requests.map Request.request_time).sum
      / ((Results.init t l).requests.map Request.request_time).length := by
    rw [le_div_iff₀ hKpos, mul_comm, ← nsmul_eq_mul]
    exact List.card_nsmul_le_sum _ f hlb
  have has : ((Results.init t l).requests.map Request.request_time).sum
      / ((Results.init t l).requests.map Request.request_time).length ≤ s := by
    rw [div_le_iff₀ hKpos, mul_comm, ← nsmul_eq_mul]
    exact List.sum_le_card_nsmul _ s hub
  refine ⟨f, _, s, ?_, ?_, ?_, hfa, has⟩
  · rw [fastest_eq_head?, hf]
  · unfold Results.average_time
    rw [if_neg hrne, List.length_map]
  · rw [slowest_eq_getLast?, hs]

/-- C7 witness at the doctest input. -/
theorem claim_C7_witness :
    demoRequests ≠ [] ∧
      (∃ f a s, (Results.init (53 / 5) demoRequests).fastest = some f ∧
        (Results.init (53 / 5) demoRequests).average_time = some a ∧
        (Results.init (53 / 5) demoRequests).slowest = some s ∧ f ≤ a ∧ a ≤ s) :=
  ⟨by simp [demoRequests], claim_C7 (53 / 5) demoRequests (by simp [demoRequests])⟩

/-- C8: constructing two `Results` from permuted requests lists and the same
`total_time` yields identical values for all seven queries. -/
theorem claim_C8 (t : ℚ) (l1 l2 : List Request) (h : l1.Perm l2) :
    (Results.init t l1).slowest = (Results.init t l2).slowest ∧
    (Results.init t l1).fastest = (Results.init t l2).fastest ∧
    (Results.init t l1).average_time = (Results.init t l2).average_time ∧
    (Results.init t l1).requests_total_time = (Results.init t l2).requests_total_time ∧
    (Results.init t l1).successful_requests = (Results.init t l2).successful_requests ∧
    (Results.init t l1).requests_per_minute = (Results.init t l2).requests_per_minute ∧
    (Results.init t l1).requests_per_second = (Results.init t l2).requests_per_second := by
  have hperm : (Results.init t l1).requests.Perm (Results.init t l2).requests :=
    (init_requests_perm t l1).trans (h.trans (init_requests_perm t l2).symm)
  have hkeys : (Results.init t l1).requests.map Request.request_time
      = (Results.init t l2).requests.map Request.request_time :=
    List.eq_of_perm_of_sorted (hperm.map _) (init_keys_sorted t l1) (init_keys_sorted t l2)
  have hlen : (Results.init t l1).requests.length = (Results.init t l2).requests.length :=
    hperm.length_eq
  have hnil : (Results.init t l1).requests = [] ↔ (Results.init t l2).requests = [] := by
    rw [← List.length_eq_zero, ← List.length_eq_zero, hlen]
  refine ⟨?_, ?_, ?_, ?_, ?_, ?_, ?_⟩
  · rw [slowest_eq_getLast?, slowest_eq_getLast?, hkeys]
  · rw [fastest_eq_head?, fastest_eq_head?, hkeys]
  · unfold Results.average_time
    by_cases hc : (Results.init t l1).requests = []
    · rw [if_pos hc, if_pos (hnil.mp hc)]
    · rw [if_neg hc, if_neg (fun hk => hc (hnil.mpr hk)), hkeys, hlen]
  · unfold Results.requests_total_time
    rw [hkeys]
  · unfold Results.successful_requests
    rw [← List.countP_eq_length_filter, ← List.countP_eq_length_filter]
    exact hperm.countP_eq _
  · unfold Results.requests_per_minute
    rw [init_total_time, init_total_time, hlen]
  · unfold Results.requests_per_second
    rw [init_total_time, init_total_time, hlen]

/-- A reordering of the doctest outcomes. -/
def demoRequestsPerm : List Request :=
  [⟨500, 61 / 10⟩, ⟨200, 26 / 25⟩, ⟨200, 17 / 5⟩]

/-- The two demo orderings hold the same multiset of outcomes. -/
lemma demo_perm : demoRequests.Perm demoRequestsPerm := by
  unfold demoRequests demoRequestsPerm
  exact (List.Perm.swap _ _ _).trans (List.Perm.cons _ (List.Perm.swap _ _ _))

/-- C8 witness: the doctest outcomes and a reordering of them. -/
theorem claim_C8_witness :
    demoRequests.Perm demoRequestsPerm ∧
      ((Results.init (53 / 5) demoRequests).slowest
          = (Results.init (53 / 5) demoRequestsPerm).slowest ∧
        (Results.init (53 / 5) demoRequests).fastest
          = (Results.init (53 / 5) demoRequestsPerm).fastest ∧
        (Results.init (53 / 5) demoRequests).average_time
          = (Results.init (53 / 5) demoRequestsPerm).average_time ∧
        (Results.init (53 / 5) demoRequests).requests_total_time
          = (Results.init (53 / 5) demoRequestsPerm).requests_total_time ∧
        (Results.init (53 / 5) demoRequests).successful_requests
          = (Results.init (53 / 5) demoRequestsPerm).successful_requests ∧
        (Results.init (53 / 5) demoRequests).requests_per_minute
          = (Results.init (53 / 5) demoRequestsPerm).requests_per_minute ∧
        (Results.init (53 / 5) demoRequests).requests_per_second
          = (Results.init (53 / 5) demoRequestsPerm).requests_per_second) :=
  ⟨demo_perm, claim_C8 (53 / 5) demoRequests demoRequestsPerm demo_perm⟩

/-- C10: for every `Results` with strictly negative `total_time`, both
throughput queries return normally with the banker's rounding of
`60·n/total_time` resp. `n/total_time`, and both values are non-positive;
no error is raised. -/
theorem claim_C10 (t : ℚ) (l : List Request) (h : t < 0) :
    (Results.init t l).requests_per_minute = some (pyRound (60 * l.length / t)) ∧
    (Results.init t l).requests_per_second = some (pyRound (l.length / t)) ∧
    pyRound (60 * l.length / t) ≤ 0 ∧ pyRound (l.length / t) ≤ 0 := by
  have ht : t ≠ 0 := ne_of_lt h
  have harg1 : 60 * (l.length : ℚ) / t ≤ 0 := by
    apply div_nonpos_iff.mpr
    left
    exact ⟨by positivity, le_of_lt h⟩
  have harg2 : (l.length : ℚ) / t ≤ 0 := by
    apply div_nonpos_iff.mpr
    left
    exact ⟨by positivity, le_of_lt h⟩
  refine ⟨?_, ?_, pyRound_nonpos harg1, pyRound_nonpos harg2⟩
  · unfold Results.requests_per_minute
    rw [init_total_time, init_requests_length, if_neg ht]
  · unfold Results.requests_per_second
    rw [init_total_time, init_requests_length, if_neg ht]

/-- C10 witness: `total_time = -2` with one request gives
`requests_per_minute() = -30` and `requests_per_second() = 0` (the
banker's rounding of `-0.5`), both non-positive. -/
theorem claim_C10_witness :
    (-2 : ℚ) < 0 ∧
      (Results.init (-2) [⟨200, 1⟩]).requests_per_minute = some (-30) ∧
      (Results.init (-2) [⟨200, 1⟩]).requests_per_second = some 0 ∧
      (-30 : ℤ) ≤ 0 ∧ (0 : ℤ) ≤ 0 := by
  have h := claim_C10 (-2) [⟨200, 1⟩] (by norm_num)
  refine ⟨by norm_num, ?_, ?_, by norm_num, le_refl 0⟩
  · rw [h.1]
    norm_num [pyRound]
  · rw [h.2.1]
    norm_num [pyRound]
